import Mathlib

/-!
Verification of the `file_writer` Picard plugin (`src/__init__.py`).

The plugin exposes one script function `func_writeline` plus an options
page with two small conversion helpers (`set2text`, `text2set`).  We give
a shallow embedding: host-supplied utilities (`is_absolute_path`,
`normpath`, `make_save_path`, `os.path.join`, `os.path.exists`, and the
`makedirs`/`open`/`write` block that may raise `OSError`) are fields of a
`Host` record, the plugin and global configuration are explicit records,
and `func_writeline` returns an `Effects` record describing its return
value, the updated `files_allowed` setting, the path/mode/content of the
write attempt, and the log messages it emitted.
-/

namespace FileWriter

/-! ### Python string primitives used by the plugin -/

/-- Model of Python's `\s` character class (whitespace). -/
def isPySpace (c : Char) : Bool := c.isWhitespace

/-- A character matched by `RE_REPLACE_UNDERSCORES = re.compile(r'[\s_]+')`. -/
def isSpaceOrUnderscore (c : Char) : Bool := c.isWhitespace || c = '_'

/-- Python `str.strip()` on a character list: drop whitespace from both ends. -/
def stripChars (l : List Char) : List Char :=
  ((l.dropWhile isPySpace).reverse.dropWhile isPySpace).reverse

/-- Python `str.strip()`. -/
def pyStrip (s : String) : String := ⟨stripChars s.toList⟩

/-- `RE_REPLACE_UNDERSCORES.sub('_', ·)` on a character list: every maximal
run of whitespace/underscore characters is replaced by a single `_`. -/
def collapseRuns : List Char → List Char
  | [] => []
  | c :: cs =>
    if isSpaceOrUnderscore c then '_' :: collapseRuns (cs.dropWhile isSpaceOrUnderscore)
    else c :: collapseRuns cs
termination_by l => l.length
decreasing_by
  · simp only [List.length_cons]
    exact Nat.lt_succ_of_le (List.dropWhile_suffix _).sublist.length_le
  · simp

/-- `RE_REPLACE_UNDERSCORES.sub('_', s)` (line 108 of `__init__.py`). -/
def replaceUnderscores (s : String) : String := ⟨collapseRuns s.toList⟩

/-! ### Host environment and configuration -/

/-- Host-application utilities imported by the plugin, together with the
operating-system flags and the fallible filesystem write used inside the
`try` block.  `try_write path mode content` models
`os.makedirs(os.path.dirname(path), exist_ok=True)` followed by
`open(path, mode, encoding='utf8')` and `f.write(content)`; an `OSError`
with message `e` is modelled as `.error e`. -/
structure Host where
  is_absolute_path : String → Bool
  normpath : String → String
  make_save_path : String → Bool → Bool → String
  path_join : String → String → String
  path_exists : String → Bool
  is_win : Bool
  is_macos : Bool
  try_write : String → Char → String → Except String Unit

/-- The plugin's own configuration (`api.plugin_config`). -/
structure PluginSettings where
  writing_enabled : Bool
  files_allowed : Finset String

/-- The host's global configuration (`api.global_config.setting`). -/
structure GlobalSettings where
  move_files_to : String
  replace_spaces_with_underscores : Bool
  move_files : Bool

/-- Log messages emitted by `func_writeline`, tagged by call site. -/
inductive LogMsg where
  | disabled : LogMsg
  | missingFile : LogMsg
  | moveNotEnabled : String → LogMsg
  | notAllowed : String → LogMsg
  | osError : String → String → LogMsg
deriving DecidableEq

/-- Observable outcome of one call to `func_writeline`. -/
structure Effects where
  returnValue : String
  files_allowed : Finset String
  resolvedPath : Option String
  attemptedPath : Option String
  writeMode : Option Char
  contentWritten : Option String
  logs : List LogMsg

/-- Outcome of the early-return paths: nothing resolved, nothing written,
settings untouched. -/
def noOutput (ps : PluginSettings) (logs : List LogMsg) : Effects :=
  { returnValue := ""
    files_allowed := ps.files_allowed
    resolvedPath := none
    attemptedPath := none
    writeMode := none
    contentWritten := none
    logs := logs }

/-! ### `func_writeline` (lines 83-134 of `__init__.py`) -/

/-- `make_save_path(normpath(p), IS_WIN, IS_MACOS)` (lines 105 and 117). -/
def sanitizePath (host : Host) (p : String) : String :=
  host.make_save_path (host.normpath p) host.is_win host.is_macos

/-- The fully expanded allow-list built at lines 101-105: each entry of
`files_allowed`, joined onto `move_files_to` when relative, then
sanitized. -/
def expandAllowed (host : Host) (gs : GlobalSettings) (s : Finset String) : Finset String :=
  s.image (fun file =>
    sanitizePath host
      (if host.is_absolute_path file then file else host.path_join gs.move_files_to file))

/-- The optional underscore substitution at lines 107-108. -/
def substituted (gs : GlobalSettings) (f : String) : String :=
  if gs.replace_spaces_with_underscores then replaceUnderscores f else f

/-- Path resolution at lines 111-116: an absolute path is kept; a relative
path is joined onto `move_files_to` when moving is enabled and a
destination is configured, and otherwise the call gives up (`none`). -/
def resolvePath (host : Host) (gs : GlobalSettings) (f : String) : Option String :=
  if host.is_absolute_path f then some f
  else if gs.move_files && gs.move_files_to != "" then some (host.path_join gs.move_files_to f)
  else none

/-- Lines 124-134: the allow-list check (which only logs), the choice of
write mode, and the guarded write.  `allowed2`/`settings2` are the
allow-list and setting after the auto-registration step. -/
def writeStep (host : Host) (allowed2 settings2 : Finset String) (p fpath t : String)
    (reset_file : Bool) : Effects :=
  match host.try_write fpath (if reset_file then 'w' else 'a') (t ++ "\n") with
  | Except.ok _ =>
    { returnValue := ""
      files_allowed := settings2
      resolvedPath := some p
      attemptedPath := some fpath
      writeMode := some (if reset_file then 'w' else 'a')
      contentWritten := some (t ++ "\n")
      logs := if fpath ∈ allowed2 then [] else [LogMsg.notAllowed fpath] }
  | Except.error e =>
    { returnValue := ""
      files_allowed := settings2
      resolvedPath := some p
      attemptedPath := some fpath
      writeMode := some (if reset_file then 'w' else 'a')
      contentWritten := none
      logs := (if fpath ∈ allowed2 then [] else [LogMsg.notAllowed fpath])
        ++ [LogMsg.osError fpath e] }

/-- Lines 117-134, after the path has been resolved to `p`: sanitize,
auto-register a path that does not exist yet (lines 119-122), then run the
check-and-write step. -/
def resolvedStep (host : Host) (gs : GlobalSettings) (ps : PluginSettings)
    (ofile t : String) (reset_file : Bool) (p : String) : Effects :=
  if host.path_exists (sanitizePath host p) = false then
    writeStep host (insert (sanitizePath host p) (expandAllowed host gs ps.files_allowed))
      (insert ofile ps.files_allowed) p (sanitizePath host p) t reset_file
  else
    writeStep host (expandAllowed host gs ps.files_allowed) ps.files_allowed p
      (sanitizePath host p) t reset_file

/-- `func_writeline(parser, file_to_write, text_to_write, reset_file)`.
The Python `reset_file` is only tested for truthiness, so it is a `Bool`
here. -/
def func_writeline (host : Host) (gs : GlobalSettings) (ps : PluginSettings)
    (file_to_write text_to_write : String) (reset_file : Bool) : Effects :=
  if ps.writing_enabled = false then noOutput ps [LogMsg.disabled]
  else if pyStrip file_to_write = "" then noOutput ps [LogMsg.missingFile]
  else
    match resolvePath host gs (substituted gs (pyStrip file_to_write)) with
    | none => noOutput ps [LogMsg.moveNotEnabled (substituted gs (pyStrip file_to_write))]
    | some p =>
      resolvedStep host gs ps (substituted gs (pyStrip file_to_write)) text_to_write reset_file p

/-! ### Options page helpers (lines 65-72 of `__init__.py`) -/

/-- `'\n'.join` on a list of strings, as Python's `str.join`. -/
def joinLines : List String → String
  | [] => ""
  | [x] => x
  | x :: y :: t => x ++ "\n" ++ joinLines (y :: t)

/-- Python `str.split('\n')` on a character list: always returns at least
one (possibly empty) piece. -/
def splitCh : List Char → List (List Char)
  | [] => [[]]
  | c :: cs =>
    match splitCh cs with
    | [] => [[]]
    | h :: t => if c = '\n' then [] :: h :: t else (c :: h) :: t

/-- `FileWriterOptionsPage.set2text`: discard the blank entry, sort, and
join with newlines.  Python's `sorted` on strings is modelled by
`Finset.sort` under the lexicographic order on strings. -/
def set2text (files : Finset String) : String :=
  joinLines (Finset.sort (fun a b => a ≤ b) (files.erase ""))

/-- `FileWriterOptionsPage.text2set`: split on newlines, take the set,
discard the blank entry. -/
def text2set (file_list : String) : Finset String :=
  (((splitCh file_list.toList).map String.mk).toFinset).erase ""

/-! ### Concrete hosts used to evaluate the embedding on sample inputs -/

/-- A minimal POSIX-like host: a path is absolute when it starts with `/`,
`normpath` and `make_save_path` are the identity, join inserts a slash,
every path exists, and writes succeed. -/
def hostA : Host :=
  { is_absolute_path := fun s => s.toList.head? == some '/'
    normpath := fun s => s
    make_save_path := fun p _ _ => p
    path_join := fun a b => a ++ "/" ++ b
    path_exists := fun _ => true
    is_win := false
    is_macos := false
    try_write := fun _ _ _ => Except.ok () }

/-- Like `hostA` but no path exists yet on disk. -/
def hostB : Host :=
  { hostA with path_exists := fun _ => false }

/-- Like `hostA` but every filesystem write raises an `OSError`. -/
def hostC : Host :=
  { hostA with try_write := fun _ _ _ => Except.error "disk full" }

/-- Global settings with moving enabled into `/music` and no underscore
substitution. -/
def gsA : GlobalSettings :=
  { move_files_to := "/music"
    replace_spaces_with_underscores := false
    move_files := true }

/-- Global settings with the move-files option disabled. -/
def gsC : GlobalSettings :=
  { gsA with move_files := false }

/-- Plugin settings with writing enabled and an empty allow-list. -/
def psA : PluginSettings :=
  { writing_enabled := true
    files_allowed := ∅ }

/-- Plugin settings with writing disabled. -/
def psOff : PluginSettings :=
  { writing_enabled := false
    files_allowed := {"/old.txt"} }

/-! ### Helper lemmas about the steps of `func_writeline` -/

lemma writeStep_returnValue (host : Host) (a s : Finset String) (p fpath t : String) (r : Bool) :
    (writeStep host a s p fpath t r).returnValue = "" := by
  unfold writeStep
  cases htw : host.try_write fpath (if r then 'w' else 'a') (t ++ "\n") <;> simp [htw]

lemma writeStep_files_allowed (host : Host) (a s : Finset String) (p fpath t : String)
    (r : Bool) : (writeStep host a s p fpath t r).files_allowed = s := by
  unfold writeStep
  cases htw : host.try_write fpath (if r then 'w' else 'a') (t ++ "\n") <;> simp [htw]

lemma writeStep_resolvedPath (host : Host) (a s : Finset String) (p fpath t : String)
    (r : Bool) : (writeStep host a s p fpath t r).resolvedPath = some p := by
  unfold writeStep
  cases htw : host.try_write fpath (if r then 'w' else 'a') (t ++ "\n") <;> simp [htw]

lemma writeStep_attemptedPath (host : Host) (a s : Finset String) (p fpath t : String)
    (r : Bool) : (writeStep host a s p fpath t r).attemptedPath = some fpath := by
  unfold writeStep
  cases htw : host.try_write fpath (if r then 'w' else 'a') (t ++ "\n") <;> simp [htw]

lemma writeStep_writeMode (host : Host) (a s : Finset String) (p fpath t : String) (r : Bool) :
    (writeStep host a s p fpath t r).writeMode = some (if r then 'w' else 'a') := by
  unfold writeStep
  cases htw : host.try_write fpath (if r then 'w' else 'a') (t ++ "\n") <;> simp [htw]

lemma writeStep_contentWritten (host : Host) (a s : Finset String) (p fpath t : String)
    (r : Bool) :
    (writeStep host a s p fpath t r).contentWritten = none ∨
      (writeStep host a s p fpath t r).contentWritten = some (t ++ "\n") := by
  unfold writeStep
  cases htw : host.try_write fpath (if r then 'w' else 'a') (t ++ "\n") <;> simp [htw]

lemma writeStep_logs_of_mem (host : Host) (a s : Finset String) (p fpath t : String)
    (r : Bool) (hmem : fpath ∈ a) (q : String) :
    LogMsg.notAllowed q ∉ (writeStep host a s p fpath t r).logs := by
  unfold writeStep
  cases htw : host.try_write fpath (if r then 'w' else 'a') (t ++ "\n") <;> simp [htw, hmem]

lemma writeStep_error (host : Host) (a s : Finset String) (p fpath t : String) (r : Bool)
    (msg : String) (herr : host.try_write fpath (if r then 'w' else 'a') (t ++ "\n")
      = Except.error msg) :
    (writeStep host a s p fpath t r).contentWritten = none ∧
      LogMsg.osError fpath msg ∈ (writeStep host a s p fpath t r).logs := by
  unfold writeStep
  rw [herr]
  simp

/-- With writing enabled, a nonempty stripped path, and a successful
resolution to `p`, `func_writeline` runs exactly the resolved step. -/
lemma func_writeline_eq_resolvedStep (host : Host) (gs : GlobalSettings) (ps : PluginSettings)
    (f t : String) (r : Bool) (p : String)
    (h1 : ps.writing_enabled = true) (h2 : pyStrip f ≠ "")
    (h3 : resolvePath host gs (substituted gs (pyStrip f)) = some p) :
    func_writeline host gs ps f t r
      = resolvedStep host gs ps (substituted gs (pyStrip f)) t r p := by
  unfold func_writeline
  rw [h1, h3]
  simp [h2]

/-- Every run of `func_writeline` either stops on an early-return path
(`noOutput`) or performs the check-and-write step on the sanitized
resolved path. -/
lemma func_writeline_shape (host : Host) (gs : GlobalSettings) (ps : PluginSettings)
    (f t : String) (r : Bool) :
    (∃ l, func_writeline host gs ps f t r = noOutput ps l) ∨
      (∃ a s p, func_writeline host gs ps f t r
        = writeStep host a s p (sanitizePath host p) t r) := by
  unfold func_writeline
  split
  · exact Or.inl ⟨_, rfl⟩
  · split
    · exact Or.inl ⟨_, rfl⟩
    · split
      · exact Or.inl ⟨_, rfl⟩
      · unfold resolvedStep
        split
        · exact Or.inr ⟨_, _, _, rfl⟩
        · exact Or.inr ⟨_, _, _, rfl⟩

/-- When the file argument is relative, moving is enabled and a
destination directory is configured, resolution joins the destination
directory onto the file argument. -/
lemma resolvePath_join (host : Host) (gs : GlobalSettings) (f : String)
    (h3 : host.is_absolute_path f = false) (h4 : gs.move_files = true)
    (h5 : gs.move_files_to ≠ "") :
    resolvePath host gs f = some (host.path_join gs.move_files_to f) := by
  unfold resolvePath
  rw [h3, h4]
  simp [h5]

/-! ### Lemmas for the options-page round trip -/

lemma toList_append (a b : String) : (a ++ b).toList = a.toList ++ b.toList := rfl

lemma mk_toList (s : String) : String.mk s.toList = s := rfl

lemma splitCh_ne_nil (l : List Char) : splitCh l ≠ [] := by
  cases l with
  | nil => simp [splitCh]
  | cons c cs =>
    cases hcs : splitCh cs with
    | nil => simp [splitCh, hcs]
    | cons h t =>
      simp only [splitCh, hcs]
      split <;> simp

lemma splitCh_no_newline (l : List Char) (h : '\n' ∉ l) : splitCh l = [l] := by
  induction l with
  | nil => rfl
  | cons c cs ih =>
    have hc : ¬ c = '\n' := by
      intro hcc
      exact h (hcc ▸ List.mem_cons_self c cs)
    have hcs : '\n' ∉ cs := fun hm => h (List.mem_cons_of_mem _ hm)
    simp only [splitCh, ih hcs]
    rw [if_neg hc]

lemma splitCh_cons_of_ne (c : Char) (cs : List Char) (hc : ¬ c = '\n') (a : List Char)
    (b : List (List Char)) (hcs : splitCh cs = a :: b) :
    splitCh (c :: cs) = (c :: a) :: b := by
  simp only [splitCh, hcs]
  rw [if_neg hc]

lemma splitCh_cons_newline (cs : List Char) (a : List Char) (b : List (List Char))
    (hcs : splitCh cs = a :: b) :
    splitCh ('\n' :: cs) = [] :: a :: b := by
  simp [splitCh, hcs]

lemma splitCh_append_newline (x r : List Char) (h : '\n' ∉ x) :
    splitCh (x ++ '\n' :: r) = x :: splitCh r := by
  induction x with
  | nil =>
    rcases hsr : splitCh r with _ | ⟨a, b⟩
    · exact absurd hsr (splitCh_ne_nil r)
    · rw [List.nil_append, splitCh_cons_newline r a b hsr]
  | cons c cs ih =>
    have hc : ¬ c = '\n' := by
      intro hcc
      exact h (hcc ▸ List.mem_cons_self c cs)
    have hcs : '\n' ∉ cs := fun hm => h (List.mem_cons_of_mem _ hm)
    rw [List.cons_append]
    rw [splitCh_cons_of_ne c _ hc cs (splitCh r) (ih hcs)]

lemma joinLines_cons_cons (x y : String) (t : List String) :
    (joinLines (x :: y :: t)).toList = x.toList ++ '\n' :: (joinLines (y :: t)).toList := by
  have hj : joinLines (x :: y :: t) = x ++ "\n" ++ joinLines (y :: t) := rfl
  rw [hj, toList_append, toList_append, List.append_assoc]
  rfl

lemma splitCh_joinLines (l : List String) (hl : l ≠ [])
    (h : ∀ x ∈ l, '\n' ∉ x.toList) :
    (splitCh (joinLines l).toList).map String.mk = l := by
  induction l with
  | nil => exact absurd rfl hl
  | cons x xs ih =>
    cases xs with
    | nil =>
      have hx : '\n' ∉ x.toList := h x (List.mem_cons_self x [])
      have hj : joinLines [x] = x := rfl
      rw [hj, splitCh_no_newline _ hx, List.map_singleton, mk_toList]
    | cons y t =>
      have hx : '\n' ∉ x.toList := h x (List.mem_cons_self _ _)
      have hrest : ∀ z ∈ y :: t, '\n' ∉ z.toList := fun z hz =>
        h z (List.mem_cons_of_mem _ hz)
      rw [joinLines_cons_cons, splitCh_append_newline _ _ hx, List.map_cons, mk_toList,
        ih (List.cons_ne_nil y t) hrest]

/-! ### Claim theorems -/

/-- C1: the claim says an existing target that is not in the expanded
allow-list is not written, but the code only logs a warning and writes
anyway.  At a concrete input where the sanitized target exists and the
allow-list is empty, the warning is logged and the content is still
written. -/
theorem C1_existing_disallowed_still_written :
    hostA.path_exists (sanitizePath hostA "/tmp/x.txt") = true ∧
      sanitizePath hostA "/tmp/x.txt" ∉ expandAllowed hostA gsA psA.files_allowed ∧
      LogMsg.notAllowed (sanitizePath hostA "/tmp/x.txt")
        ∈ (func_writeline hostA gsA psA "/tmp/x.txt" "hello" false).logs ∧
      (func_writeline hostA gsA psA "/tmp/x.txt" "hello" false).contentWritten
        = some "hello\n" := by
  decide

/-- C2: with the master enable switch off, `func_writeline` returns the
empty string, leaves `files_allowed` untouched, and opens and writes
nothing. -/
theorem C2_disabled_no_effect (host : Host) (gs : GlobalSettings) (ps : PluginSettings)
    (f t : String) (r : Bool) (h : ps.writing_enabled = false) :
    (func_writeline host gs ps f t r).returnValue = "" ∧
      (func_writeline host gs ps f t r).files_allowed = ps.files_allowed ∧
      (func_writeline host gs ps f t r).attemptedPath = none ∧
      (func_writeline host gs ps f t r).contentWritten = none := by
  unfold func_writeline
  rw [h]
  simp [noOutput]

theorem C2_disabled_no_effect_witness :
    psOff.writing_enabled = false ∧
      ((func_writeline hostA gsA psOff "/tmp/x.txt" "hello" false).returnValue = "" ∧
        (func_writeline hostA gsA psOff "/tmp/x.txt" "hello" false).files_allowed
          = psOff.files_allowed ∧
        (func_writeline hostA gsA psOff "/tmp/x.txt" "hello" false).attemptedPath = none ∧
        (func_writeline hostA gsA psOff "/tmp/x.txt" "hello" false).contentWritten = none) :=
  ⟨rfl, C2_disabled_no_effect hostA gsA psOff "/tmp/x.txt" "hello" false rfl⟩

/-- C3 counterexample: with the move-files option disabled, a relative
file argument is not resolved at all (the call returns early), so the
claim that every relative argument is resolved by joining onto
`move_files_to` fails. -/
theorem C3_counterexample :
    hostA.is_absolute_path (substituted gsC (pyStrip " notes.txt ")) = false ∧
      (func_writeline hostA gsC psA " notes.txt " "hi" false).resolvedPath ≠
        some (hostA.path_join gsC.move_files_to (substituted gsC (pyStrip " notes.txt "))) := by
  decide

/-- C3 amended: when writing is enabled, the stripped file argument is
nonempty and relative, the move-files option is enabled and a destination
directory is configured, the target path is resolved by joining the
destination directory with the (stripped, optionally
underscore-substituted) file argument. -/
theorem C3_relative_resolution (host : Host) (gs : GlobalSettings) (ps : PluginSettings)
    (f t : String) (r : Bool)
    (h1 : ps.writing_enabled = true) (h2 : pyStrip f ≠ "")
    (h3 : host.is_absolute_path (substituted gs (pyStrip f)) = false)
    (h4 : gs.move_files = true) (h5 : gs.move_files_to ≠ "") :
    (func_writeline host gs ps f t r).resolvedPath
      = some (host.path_join gs.move_files_to (substituted gs (pyStrip f))) := by
  rw [func_writeline_eq_resolvedStep host gs ps f t r
    (host.path_join gs.move_files_to (substituted gs (pyStrip f))) h1 h2
    (resolvePath_join host gs _ h3 h4 h5)]
  unfold resolvedStep
  split
  · rw [writeStep_resolvedPath]
  · rw [writeStep_resolvedPath]

theorem C3_relative_resolution_witness :
    psA.writing_enabled = true ∧ pyStrip "notes.txt" ≠ "" ∧
      hostA.is_absolute_path (substituted gsA (pyStrip "notes.txt")) = false ∧
      gsA.move_files = true ∧ gsA.move_files_to ≠ "" ∧
      (func_writeline hostA gsA psA "notes.txt" "hi" false).resolvedPath
        = some (hostA.path_join gsA.move_files_to (substituted gsA (pyStrip "notes.txt"))) :=
  ⟨rfl, by decide, by decide, rfl, by decide,
    C3_relative_resolution hostA gsA psA "notes.txt" "hi" false rfl (by decide) (by decide)
      rfl (by decide)⟩

/-- C4: whenever the write step is reached, the file is opened in
truncate mode exactly when `reset_file` is truthy and in append mode
otherwise. -/
theorem C4_write_mode (host : Host) (gs : GlobalSettings) (ps : PluginSettings)
    (f t : String) (r : Bool) (q : String)
    (h : (func_writeline host gs ps f t r).attemptedPath = some q) :
    (func_writeline host gs ps f t r).writeMode = some (if r then 'w' else 'a') := by
  rcases func_writeline_shape host gs ps f t r with ⟨l, hl⟩ | ⟨a, s, p, hw⟩
  · rw [hl] at h
    simp [noOutput] at h
  · rw [hw]
    exact writeStep_writeMode _ _ _ _ _ _ _

theorem C4_write_mode_witness :
    (func_writeline hostA gsA psA "/tmp/x.txt" "hello" true).attemptedPath
        = some "/tmp/x.txt" ∧
      (func_writeline hostA gsA psA "/tmp/x.txt" "hello" true).writeMode
        = some (if true then 'w' else 'a') :=
  ⟨by decide, C4_write_mode hostA gsA psA "/tmp/x.txt" "hello" true "/tmp/x.txt" (by decide)⟩

/-- C5: whatever run is taken, either nothing is written or the written
content is exactly the text argument followed by a single newline. -/
theorem C5_single_line (host : Host) (gs : GlobalSettings) (ps : PluginSettings)
    (f t : String) (r : Bool) :
    (func_writeline host gs ps f t r).contentWritten = none ∨
      (func_writeline host gs ps f t r).contentWritten = some (t ++ "\n") := by
  rcases func_writeline_shape host gs ps f t r with ⟨l, hl⟩ | ⟨a, s, p, hw⟩
  · rw [hl]
    exact Or.inl rfl
  · rw [hw]
    exact writeStep_contentWritten _ _ _ _ _ _ _

/-- C6: when the sanitized resolved target does not exist yet, the
pre-resolution path is added to the persisted `files_allowed` setting,
the sanitized path is in the expanded allow-list used for the check, and
no not-in-allowed-list warning is logged. -/
theorem C6_autoregister (host : Host) (gs : GlobalSettings) (ps : PluginSettings)
    (f t : String) (r : Bool) (p : String)
    (h1 : ps.writing_enabled = true) (h2 : pyStrip f ≠ "")
    (h3 : resolvePath host gs (substituted gs (pyStrip f)) = some p)
    (h4 : host.path_exists (sanitizePath host p) = false) :
    (func_writeline host gs ps f t r).files_allowed
        = insert (substituted gs (pyStrip f)) ps.files_allowed ∧
      sanitizePath host p
        ∈ insert (sanitizePath host p) (expandAllowed host gs ps.files_allowed) ∧
      LogMsg.notAllowed (sanitizePath host p) ∉ (func_writeline host gs ps f t r).logs := by
  rw [func_writeline_eq_resolvedStep host gs ps f t r p h1 h2 h3]
  unfold resolvedStep
  rw [if_pos h4]
  refine ⟨writeStep_files_allowed _ _ _ _ _ _ _, Finset.mem_insert_self _ _, ?_⟩
  exact writeStep_logs_of_mem _ _ _ _ _ _ _ (Finset.mem_insert_self _ _) _

theorem C6_autoregister_witness :
    psA.writing_enabled = true ∧ pyStrip "notes.txt" ≠ "" ∧
      resolvePath hostB gsA (substituted gsA (pyStrip "notes.txt")) = some "/music/notes.txt" ∧
      hostB.path_exists (sanitizePath hostB "/music/notes.txt") = false ∧
      ((func_writeline hostB gsA psA "notes.txt" "hi" false).files_allowed
          = insert (substituted gsA (pyStrip "notes.txt")) psA.files_allowed ∧
        sanitizePath hostB "/music/notes.txt"
          ∈ insert (sanitizePath hostB "/music/notes.txt")
              (expandAllowed hostB gsA psA.files_allowed) ∧
        LogMsg.notAllowed (sanitizePath hostB "/music/notes.txt")
          ∉ (func_writeline hostB gsA psA "notes.txt" "hi" false).logs) :=
  ⟨rfl, by decide, by decide, by decide,
    C6_autoregister hostB gsA psA "notes.txt" "hi" false "/music/notes.txt" rfl (by decide)
      (by decide) (by decide)⟩

/-- C7: whenever path resolution succeeds, the path handed to the write
step is `make_save_path(normpath(resolved), IS_WIN, IS_MACOS)`. -/
theorem C7_sanitized_target (host : Host) (gs : GlobalSettings) (ps : PluginSettings)
    (f t : String) (r : Bool) (p : String)
    (h1 : ps.writing_enabled = true) (h2 : pyStrip f ≠ "")
    (h3 : resolvePath host gs (substituted gs (pyStrip f)) = some p) :
    (func_writeline host gs ps f t r).attemptedPath = some (sanitizePath host p) := by
  rw [func_writeline_eq_resolvedStep host gs ps f t r p h1 h2 h3]
  unfold resolvedStep
  split
  · rw [writeStep_attemptedPath]
  · rw [writeStep_attemptedPath]

theorem C7_sanitized_target_witness :
    psA.writing_enabled = true ∧ pyStrip "/tmp/x.txt" ≠ "" ∧
      resolvePath hostA gsA (substituted gsA (pyStrip "/tmp/x.txt")) = some "/tmp/x.txt" ∧
      (func_writeline hostA gsA psA "/tmp/x.txt" "hello" false).attemptedPath
        = some (sanitizePath hostA "/tmp/x.txt") :=
  ⟨rfl, by decide, by decide,
    C7_sanitized_target hostA gsA psA "/tmp/x.txt" "hello" false "/tmp/x.txt" rfl (by decide)
      (by decide)⟩

/-- C8: on every path through the function, successful or not,
`func_writeline` returns the empty string. -/
theorem C8_returns_empty (host : Host) (gs : GlobalSettings) (ps : PluginSettings)
    (f t : String) (r : Bool) :
    (func_writeline host gs ps f t r).returnValue = "" := by
  rcases func_writeline_shape host gs ps f t r with ⟨l, hl⟩ | ⟨a, s, p, hw⟩
  · rw [hl]
    rfl
  · rw [hw]
    exact writeStep_returnValue _ _ _ _ _ _ _

/-- C9: if the filesystem write raises an `OSError`, the error is caught
and logged, nothing is recorded as written, and the function still
returns the empty string. -/
theorem C9_oserror_handled (host : Host) (gs : GlobalSettings) (ps : PluginSettings)
    (f t : String) (r : Bool) (q msg : String)
    (h : (func_writeline host gs ps f t r).attemptedPath = some q)
    (herr : host.try_write q (if r then 'w' else 'a') (t ++ "\n") = Except.error msg) :
    (func_writeline host gs ps f t r).returnValue = "" ∧
      (func_writeline host gs ps f t r).contentWritten = none ∧
      LogMsg.osError q msg ∈ (func_writeline host gs ps f t r).logs := by
  rcases func_writeline_shape host gs ps f t r with ⟨l, hl⟩ | ⟨a, s, p, hw⟩
  · rw [hl] at h
    simp [noOutput] at h
  · rw [hw] at h ⊢
    rw [writeStep_attemptedPath] at h
    obtain rfl : sanitizePath host p = q := Option.some_injective _ h
    obtain ⟨hc, hm⟩ := writeStep_error host a s p (sanitizePath host p) t r msg herr
    exact ⟨writeStep_returnValue _ _ _ _ _ _ _, hc, hm⟩

theorem C9_oserror_handled_witness :
    (func_writeline hostC gsA psA "/tmp/x.txt" "hello" false).attemptedPath
        = some "/tmp/x.txt" ∧
      hostC.try_write "/tmp/x.txt" (if false then 'w' else 'a') ("hello" ++ "\n")
        = Except.error "disk full" ∧
      ((func_writeline hostC gsA psA "/tmp/x.txt" "hello" false).returnValue = "" ∧
        (func_writeline hostC gsA psA "/tmp/x.txt" "hello" false).contentWritten = none ∧
        LogMsg.osError "/tmp/x.txt" "disk full"
          ∈ (func_writeline hostC gsA psA "/tmp/x.txt" "hello" false).logs) :=
  ⟨by decide, rfl,
    C9_oserror_handled hostC gsA psA "/tmp/x.txt" "hello" false "/tmp/x.txt" "disk full"
      (by decide) rfl⟩

/-- C10: for a set of strings none of which contains a newline, the
options-page round trip `text2set (set2text s)` equals `s` with the empty
string removed. -/
theorem C10_roundtrip (s : Finset String)
    (h : s.filter (fun x => '\n' ∈ x.toList) = ∅) :
    text2set (set2text s) = s.erase "" := by
  have hchar : ∀ x ∈ s, '\n' ∉ x.toList := by
    intro x hx hmem
    have hfil : x ∈ s.filter (fun x => '\n' ∈ x.toList) := Finset.mem_filter.mpr ⟨hx, hmem⟩
    rw [h] at hfil
    exact absurd hfil (Finset.not_mem_empty x)
  by_cases hs : s.erase "" = ∅
  · unfold set2text
    rw [hs, Finset.sort_empty]
    decide
  · have hlne : Finset.sort (fun a b => a ≤ b) (s.erase "") ≠ [] := by
      intro hnil
      have h2 : (Finset.sort (fun a b => a ≤ b) (s.erase "")).toFinset = s.erase "" :=
        Finset.sort_toFinset _ _
      rw [hnil] at h2
      exact hs (h2.symm.trans List.toFinset_nil)
    have helems : ∀ x ∈ Finset.sort (fun a b => a ≤ b) (s.erase ""), '\n' ∉ x.toList := by
      intro x hx
      have hxe : x ∈ s.erase "" := (Finset.mem_sort _).mp hx
      exact hchar x (Finset.mem_of_mem_erase hxe)
    have key := splitCh_joinLines _ hlne helems
    unfold set2text text2set
    rw [key, Finset.sort_toFinset _ _, Finset.erase_idem]

theorem C10_roundtrip_witness :
    ({"b", "a", ""} : Finset String).filter (fun x => '\n' ∈ x.toList) = ∅ ∧
      text2set (set2text ({"b", "a", ""} : Finset String))
        = ({"b", "a", ""} : Finset String).erase "" :=
  ⟨by decide, C10_roundtrip _ (by decide)⟩

end FileWriter
